import Mathlib

/-!
Verification of the CFPB complaint-analysis pipeline
(repository `CFPB_version5_rebuilt`).

Shallow embedding of the core ingestion / caching / filtering /
classification code:

* `analysis/real_data_fetcher_search.py` — `SearchAPIRealDataFetcher`
  (`__init__`, `_page`, `load_and_filter_data`, `_apply_filters`);
* `analysis/real_data_fetcher_lite.py` — `RealDataFetcher`
  (`__init__`, `load_and_filter_data` cache check and filter section);
* `analysis/cfpb_analyzer.py` — `CFPBAnalyzer`
  (`__init__`, `load_and_filter_data`, `analyze_harm_mechanisms`).

Modelling conventions:

* `datetime` values are integers counting days (timedelta arithmetic
  becomes integer arithmetic); `daysFromCivil` converts a calendar date
  to such a count.
* A pandas `DataFrame` of complaints is a `Batch`: a list of rows plus
  booleans recording which optional columns are present.  A missing
  value (NaN / NaT) in a row is `Option.none`.  Comparisons against
  NaT are false, `isin` on NaN is false, matching pandas semantics.
* The HTTP Search API provider is modelled as an honest paged list:
  a request with offset `frm` and page size `s` returns
  `(provider.drop frm).take s`.
* Python `str.strip` is `pyStrip` and `str.lower` is `pyLower`,
  computed on character lists; `Series.mode` (which returns
  the most frequent values sorted ascending) is `mode0`, giving
  `mode()[0]` = the smallest value of maximal multiplicity.
* The regex matcher applied to narratives (`Series.str.contains` with
  a compiled pattern) is an external library; it is abstracted as a
  Boolean predicate parameter on the optional narrative
  (`na=False`: a missing narrative never matches).
-/

/-- Day count of a proleptic-Gregorian calendar date (days since
1970-01-01); the standard civil-from-days algorithm, used to embed
Python `datetime` constants. -/
def daysFromCivil (y m d : Int) : Int :=
  let y' : Int := if m ≤ 2 then y - 1 else y
  let era : Int := Int.fdiv y' 400
  let yoe : Int := y' - era * 400
  let mp : Int := if m > 2 then m - 3 else m + 9
  let doy : Int := Int.fdiv (153 * mp + 2) 5 + d - 1
  let doe : Int := yoe * 365 + Int.fdiv yoe 4 - Int.fdiv yoe 100 + doy
  era * 146097 + doe - 719468

/-- One complaint record (one row of the DataFrame).  Fields are the
columns produced by the fetchers; `none` is a missing value. -/
structure Complaint where
  complaintId : Option String := none
  dateReceived : Option Int := none
  dateSent : Option Int := none
  product : Option String := none
  issue : Option String := none
  company : Option String := none
  state : Option String := none
  narrative : Option String := none
deriving DecidableEq

/-- A DataFrame of complaints: the rows plus whether the
"Consumer complaint narrative" column is present at all. -/
structure Batch where
  rows : List Complaint
  hasNarrativeCol : Bool
deriving DecidableEq

/-- The credit-reporting product exclusion set
(`SearchAPIRealDataFetcher.__init__`, `self.credit_exclusions`; the
lite fetcher's `RealDataFetcher.__init__` lists the same four
strings). -/
def creditExclusions : List String :=
  [ "Credit reporting, credit repair services, or other personal consumer reports"
  , "Credit reporting"
  , "Credit repair services"
  , "Other personal consumer reports" ]

/-- `(df["Date received"] >= start) & (df["Date received"] <= end)` for
one row; a NaT date compares false. -/
def dateOk (startDate stopDate : Int) (c : Complaint) : Bool :=
  match c.dateReceived with
  | some d => decide (startDate ≤ d) && decide (d ≤ stopDate)
  | none => false

/-- Python `str.strip`: drop leading and trailing whitespace
characters (computed on the character list). -/
def pyStrip (s : String) : String :=
  ⟨((s.data.dropWhile Char.isWhitespace).reverse.dropWhile
      Char.isWhitespace).reverse⟩

/-- Python `str.lower`, character by character. -/
def pyLower (s : String) : String := ⟨s.data.map Char.toLower⟩

/-- `narrative.notna() & (narrative.str.strip() != "")` for one row. -/
def narrOk (c : Complaint) : Bool :=
  match c.narrative with
  | some s => pyStrip s ≠ ""
  | none => false

/-- `df["Product"].isin(self.credit_exclusions)` for one row; NaN is
never a member. -/
def productExcluded (c : Complaint) : Bool :=
  match c.product with
  | some p => creditExclusions.contains p
  | none => false

/-- The state of a `SearchAPIRealDataFetcher` relevant to filtering and
paging: the window, lite mode and the record cap. -/
structure FetcherS where
  startDate : Int
  stopDate : Int
  liteMode : Bool
  maxRecords : Nat
deriving DecidableEq

/-- Month clamping in `SearchAPIRealDataFetcher.__init__`:
`months = max(1, min(int(months), 3))`. -/
def clampSearchMonths (m : Int) : Int := max 1 (min m 3)

/-- Month clamping in the lite `RealDataFetcher.__init__`:
`months = max(1, min(months, 12))`. -/
def clampLiteMonths (m : Int) : Int := max 1 (min m 12)

/-- The analysis window `{start, end}` computed by both fetchers:
`end = now`, `start = end - 30*months days`. -/
structure Window where
  startDate : Int
  stopDate : Int
deriving DecidableEq

/-- Window of `SearchAPIRealDataFetcher` (months clamped to `[1,3]`). -/
def searchWindow (now m : Int) : Window :=
  { startDate := now - 30 * clampSearchMonths m, stopDate := now }

/-- Window of the lite `RealDataFetcher` (months clamped to `[1,12]`). -/
def liteWindow (now m : Int) : Window :=
  { startDate := now - 30 * clampLiteMonths m, stopDate := now }

/-- Parsing of the `MONTHS_WINDOW` environment variable in
`RealDataFetcher.__init__`: `int(os.environ.get("MONTHS_WINDOW", "4"))`
with `ValueError` fallback to 4. -/
def parseMonthsEnv (v : Option String) : Int :=
  match v with
  | none => 4
  | some s => (s.toInt?).getD 4

/-- Parsing of the `LITE_MODE` environment variable in
`SearchAPIRealDataFetcher.__init__`:
`str(os.environ.get("LITE_MODE", "1")).lower() in ("1","true","yes")`. -/
def liteModeOfEnv (v : Option String) : Bool :=
  ["1", "true", "yes"].contains (pyLower (v.getD "1"))

/-- Embedding of `SearchAPIRealDataFetcher._apply_filters`: window mask (plus the
narrative-presence mask only when not in lite mode and the column is
present), the credit-reporting product exclusion, and the drop of the
narrative column in lite mode.  The `if df.empty: return df` guard is
kept. -/
def applyFilters (f : FetcherS) (df : Batch) : Batch :=
  if df.rows.isEmpty then df
  else
    let needNarr : Bool := !f.liteMode && df.hasNarrativeCol
    let rows1 := df.rows.filter fun c =>
      dateOk f.startDate f.stopDate c && (!needNarr || narrOk c)
    let rows2 := rows1.filter fun c => !productExcluded c
    { rows := rows2
      hasNarrativeCol := if f.liteMode then false else df.hasNarrativeCol }

/-- Row construction in `SearchAPIRealDataFetcher.load_and_filter_data`:
the `"Consumer complaint narrative"` key is added only when not in lite
mode. -/
def buildRow (lite : Bool) (s : Complaint) : Complaint :=
  if lite then { s with narrative := none } else s

/-- Result of one run of the `_page` generator: the `(frm, size)`
parameter pairs of the HTTP requests issued, in order, and the pages of
hits yielded. -/
structure PageRun where
  requests : List (Nat × Nat)
  pages : List (List Complaint)
deriving DecidableEq

/-- Response of the (honest) paged provider to a request with offset
`frm` and page size `n`: the corresponding slice of its record list. -/
def pageHits (provider : List Complaint) (frm n : Nat) : List Complaint :=
  (provider.drop frm).take n

/-- Loop body of `SearchAPIRealDataFetcher._page`: stop when
`frm >= max_offset` or `total_yielded >= max_records`; request
`min(size, max_records - total_yielded)` records at offset `frm`; stop
on an empty page; yield the page; stop when the page was short or the
cap is reached; otherwise advance `frm += size`. -/
def pageLoop (provider : List Complaint) (size maxRecords maxOffset frm total : Nat) :
    PageRun :=
  if h1 : maxOffset ≤ frm ∨ maxRecords ≤ total then ⟨[], []⟩
  else if h2 : pageHits provider frm (min size (maxRecords - total)) = [] then
    ⟨[(frm, min size (maxRecords - total))], []⟩
  else if h3 : (pageHits provider frm (min size (maxRecords - total))).length < size
      ∨ maxRecords ≤ total + (pageHits provider frm (min size (maxRecords - total))).length then
    ⟨[(frm, min size (maxRecords - total))],
     [pageHits provider frm (min size (maxRecords - total))]⟩
  else
    let rest := pageLoop provider size maxRecords maxOffset (frm + size)
      (total + (pageHits provider frm (min size (maxRecords - total))).length)
    ⟨(frm, min size (maxRecords - total)) :: rest.requests,
     pageHits provider frm (min size (maxRecords - total)) :: rest.pages⟩
termination_by maxOffset - frm
decreasing_by
  simp only [not_or, not_le, not_lt] at h1 h3
  have hle : (pageHits provider frm (min size (maxRecords - total))).length
      ≤ min size (maxRecords - total) := by
    simp [pageHits]
  have hpos : 0 < (pageHits provider frm (min size (maxRecords - total))).length :=
    List.length_pos.mpr h2
  omega

/-- Full run of `_page`: `frm` starts at 0, and
`max_offset = min(10000, self.max_records)`. -/
def pageRun (provider : List Complaint) (size maxRecords : Nat) : PageRun :=
  pageLoop provider size maxRecords (min 10000 maxRecords) 0 0

/-- Total number of records yielded across all pages of a run. -/
def totalYield (r : PageRun) : Nat := (r.pages.map List.length).sum

/-- Outcome of the underlying HTTP session for one load: an exception
(`requests.HTTPError` or other), or an honest paged provider. -/
inductive FetchOutcome where
  | failure : FetchOutcome
  | success : List Complaint → FetchOutcome
deriving DecidableEq

/-- Inner `for h in hits` loop of
`SearchAPIRealDataFetcher.load_and_filter_data`: rows are appended
(without the narrative field in lite mode) until
`len(rows) >= self.max_records`, which sets `truncated`. -/
def takeHits (lite : Bool) (maxRecords : Nat) (rows hits : List Complaint) :
    List Complaint × Bool :=
  match hits with
  | [] => (rows, false)
  | h :: t =>
    if maxRecords ≤ rows.length then (rows, true)
    else takeHits lite maxRecords (rows ++ [buildRow lite h]) t

/-- Outer `for hits in self._page()` loop of
`SearchAPIRealDataFetcher.load_and_filter_data`: accumulate pages,
stopping as soon as `truncated` is set. -/
def accumPages (lite : Bool) (maxRecords : Nat) (rows : List Complaint) :
    List (List Complaint) → List Complaint × Bool
  | [] => (rows, false)
  | p :: rest =>
    match takeHits lite maxRecords rows p with
    | (rows2, true) => (rows2, true)
    | (rows2, false) => accumPages lite maxRecords rows2 rest

/-- Row-accumulation core of
`SearchAPIRealDataFetcher.load_and_filter_data`: `None` on an HTTP
exception, `None` when no rows were loaded, otherwise the accumulated
rows (capped at `max_records`) together with the local `truncated`
flag.  The flag is what the source only ever prints. -/
def loadCore (f : FetcherS) (size : Nat) (outcome : FetchOutcome) :
    Option (List Complaint × Bool) :=
  match outcome with
  | .failure => none
  | .success provider =>
    match accumPages f.liteMode f.maxRecords [] (pageRun provider size f.maxRecords).pages with
    | (rows, tr) =>
      if rows = [] then none
      else if f.maxRecords < rows.length then some (rows.take f.maxRecords, true)
      else some (rows, tr)

/-- Public result of `SearchAPIRealDataFetcher.load_and_filter_data`
(API path): the filtered DataFrame or `None`; the narrative column is
present in the raw frame only when not in lite mode, and the
`truncated` flag is dropped. -/
def loadAndFilterDataS (f : FetcherS) (size : Nat) (outcome : FetchOutcome) :
    Option Batch :=
  match loadCore f size outcome with
  | none => none
  | some (rows, _) =>
    some (applyFilters f { rows := rows, hasNarrativeCol := !f.liteMode })

/-- A DataFrame as read by the lite `RealDataFetcher`: rows plus
presence of the narrative column (under either alias
`Consumer complaint narrative` / `consumer_complaint_narrative`) and of
the product column (`Product` / `product`). -/
structure BatchL where
  rows : List Complaint
  hasNarrativeCol : Bool
  hasProductCol : Bool
deriving DecidableEq

/-- Result of the filter section of the lite
`RealDataFetcher.load_and_filter_data`: the filtered rows and the
warnings printed along the way. -/
structure LiteFilterOut where
  rows : List Complaint
  warnings : List String
deriving DecidableEq

/-- Warning printed by the lite fetcher when no narrative column is
found. -/
def noNarrativeWarning : String := "WARNING: No narrative column found"

/-- Narrative mask of the lite fetcher: the real predicate when the
column exists, else `pd.Series([True] * len(df))`. -/
def narrPass (df : BatchL) (c : Complaint) : Bool :=
  if df.hasNarrativeCol then narrOk c else true

/-- Product mask of the lite fetcher: `~isin(credit_exclusions)` when
the column exists, else `pd.Series([True] * len(df))`. -/
def prodPass (df : BatchL) (c : Complaint) : Bool :=
  if df.hasProductCol then !productExcluded c else true

/-- Filter section of the lite `RealDataFetcher.load_and_filter_data`
(date mask, narrative mask, product mask, applied conjunctively), with
the warning emitted only in the missing-narrative-column branch; the
missing-product-column branch emits nothing. -/
def liteFilter (startDate stopDate : Int) (df : BatchL) : LiteFilterOut :=
  { rows := df.rows.filter fun c =>
      dateOk startDate stopDate c && narrPass df c && prodPass df c
    warnings := if df.hasNarrativeCol then [] else [noNarrativeWarning] }

/-- A cached filtered file of the lite fetcher: its rows and the age in
whole days of its modification time (`cache_age.days`). -/
structure CacheEntry where
  records : List Complaint
  ageDays : Nat
deriving DecidableEq

/-- Minimum of the `Date received` column of a cache entry
(`df["Date received"].min()`, NaT values skipped). -/
def covMin (e : CacheEntry) : Option Int :=
  (e.records.filterMap (·.dateReceived)).min?

/-- Maximum of the `Date received` column of a cache entry
(`df["Date received"].max()`, NaT values skipped). -/
def covMax (e : CacheEntry) : Option Int :=
  (e.records.filterMap (·.dateReceived)).max?

/-- Decision taken by the cache check of
`RealDataFetcher.load_and_filter_data`: return the cached rows, or fall
through to a fresh download. -/
inductive LiteLoadStep where
  | useCache : List Complaint → LiteLoadStep
  | refetch : LiteLoadStep
deriving DecidableEq

/-- Cache check at the top of the lite
`RealDataFetcher.load_and_filter_data`: the cached file is used iff it
exists, `cache_age.days < 7`, and its `Date received` range satisfies
`cache_start <= start_date and cache_end >= end_date - 7 days`. -/
def liteCacheStep (entry : Option CacheEntry) (startDate stopDate : Int) :
    LiteLoadStep :=
  match entry with
  | none => .refetch
  | some e =>
    if e.ageDays < 7 then
      match covMin e, covMax e with
      | some cs, some ce =>
        if cs ≤ startDate ∧ stopDate - 7 ≤ ce then .useCache e.records
        else .refetch
      | _, _ => .refetch
    else .refetch

/-- State of a `CFPBAnalyzer` relevant to filtering: the fixed window
and the `credit_exclusions` attribute, which `__init__` never assigns
(hence `none`). -/
structure AnalyzerState where
  startDate : Int
  stopDate : Int
  creditExclusions : Option (List String)
deriving DecidableEq

/-- Embedding of `CFPBAnalyzer.__init__`: the window is fixed to
2025-04-19 .. 2025-10-19, and `self.credit_exclusions` is read later
but never assigned anywhere in the class. -/
def analyzerInit : AnalyzerState :=
  { startDate := daysFromCivil 2025 4 19
    stopDate := daysFromCivil 2025 10 19
    creditExclusions := none }

/-- Narrative mask of `CFPBAnalyzer.load_and_filter_data`:
`notna() & (narrative != "")` (no strip in this module). -/
def narrOkAnalyzer (c : Complaint) : Bool :=
  match c.narrative with
  | some s => s ≠ ""
  | none => false

/-- Embedding of `CFPBAnalyzer.load_and_filter_data`: the date and
narrative masks are computed, then the product mask reads
`self.credit_exclusions`; reading the never-assigned attribute raises
`AttributeError`, modelled as `Except.error`. -/
def analyzerLoadAndFilterData (st : AnalyzerState) (rows : List Complaint) :
    Except String (List Complaint) :=
  let dateMask := fun c => dateOk st.startDate st.stopDate c
  let narrativeMask := fun c => narrOkAnalyzer c
  match st.creditExclusions with
  | none =>
    .error "AttributeError: CFPBAnalyzer object has no attribute credit_exclusions"
  | some excl =>
    .ok (rows.filter fun c =>
      dateMask c && narrativeMask c &&
        !(match c.product with
          | some p => excl.contains p
          | none => false))

/-- Rows of a corpus whose narrative matches a given predicate, as in
`analyze_harm_mechanisms`: `df_copy[mask]` where the mask applies the
combined pattern of one harm label to each narrative (`na=False`). -/
def matchingRows (p : Option String → Bool) (corpus : List Complaint) :
    List Complaint :=
  corpus.filter fun c => p c.narrative

/-- Strict "appears earlier in `mode()` order" comparison between two
values of a column `l`: higher multiplicity first, then smaller string.
Used to fold out `Series.mode()[0]`. -/
def better (l : List String) (a b : String) : Bool :=
  decide (l.count b < l.count a) ||
    (l.count a == l.count b && decide (a.data < b.data))

/-- Fold selecting the best element (in the `better` order) of a list,
starting from a given candidate. -/
def pickBest (l : List String) (best : String) : List String → String
  | [] => best
  | y :: ys => pickBest l (if better l y best then y else best) ys

/-- Embedding of `series.mode()`, index 0: pandas `Series.mode` returns
the most frequent values sorted ascending, so index 0 is the least
value of maximal multiplicity.  On an empty / all-NaN column `mode()`
is an empty Series; `mode0` returns `none` there and `summaryFor`
surfaces that as the `KeyError` the source raises at `[0]`. -/
def mode0 (l : List String) : Option String :=
  match l with
  | [] => none
  | x :: _ => some (pickBest l x l)

/-- One row of the harm-mechanism summary built by
`CFPBAnalyzer.analyze_harm_mechanisms` for a label with at least one
match. -/
structure SummaryRow where
  count : Nat
  percentage : ℚ
  topProduct : String
  topCompany : String
deriving DecidableEq

/-- Summary-row computation of `CFPBAnalyzer.analyze_harm_mechanisms`
for one harm label, with the compiled combined regex abstracted as a
predicate on the optional narrative: labels with zero matches are
omitted (`none`); otherwise `Count` is the number of matches,
`Percentage` is `count / len(filtered_df) * 100`, `Top Product` is
`matching_complaints["product"].mode()[0]` (line 286) and
`Top Company` likewise (line 287).  When the product (respectively
company) column of the matches is empty or all-NaN, the source raises
`KeyError: 0` at the indexing — the product access raising first —
modelled as `Except.error`. -/
def summaryFor (p : Option String → Bool) (corpus : List Complaint) :
    Option (Except String SummaryRow) :=
  if (matchingRows p corpus).length = 0 then none
  else
    match mode0 ((matchingRows p corpus).filterMap (·.product)) with
    | none => some (.error "KeyError: 0")
    | some tp =>
      match mode0 ((matchingRows p corpus).filterMap (·.company)) with
      | none => some (.error "KeyError: 0")
      | some tc =>
        some (.ok
          { count := (matchingRows p corpus).length
            percentage :=
              (((matchingRows p corpus).length : ℚ) / (corpus.length : ℚ)) * 100
            topProduct := tp
            topCompany := tc })

/-- Modelled from the spec: the top-product selection as the spec words
it — the most frequent value with ties broken by first-encountered
order — for comparison against the implementation (`mode0`). -/
def topFirstEncountered (l : List String) : Option String :=
  match l with
  | [] => none
  | x :: _ =>
    some (l.foldl (fun best y => if l.count best < l.count y then y else best) x)

/-- A record with every field missing (a hit whose `_source` carries no
usable values). -/
def c0 : Complaint := {}

/-- A provider holding 400 records, more than the 250-record cap of the
truncation scenario. -/
def provider400 : List Complaint := List.replicate 400 c0

/-- Fetcher state for the truncation scenario: `max_records = 250`,
lite mode on. -/
def f250 : FetcherS :=
  { startDate := 0, stopDate := 1000, liteMode := true, maxRecords := 250 }

/-- Default-like fetcher state (lite mode on, `max_records = 5000`),
window days 0..90. -/
def fLite : FetcherS :=
  { startDate := 0, stopDate := 90, liteMode := true, maxRecords := 5000 }

/-- Fetcher state with lite mode off, window days 0..90. -/
def fFull : FetcherS :=
  { startDate := 0, stopDate := 90, liteMode := false, maxRecords := 5000 }

/-- A record inside the 0..90 window, with a narrative and a
non-excluded product. -/
def cGood : Complaint :=
  { dateReceived := some 5, product := some "Mortgage",
    company := some "Bank A", narrative := some "bad fee" }

/-- A record whose date lies outside the 0..90 window. -/
def cOut : Complaint := { dateReceived := some 500 }

/-- A record inside the window with no narrative value at all. -/
def cNoNarr : Complaint := { dateReceived := some 5, product := some "Checking" }

/-- A matching complaint with product "B" and company "CompB"
(encountered first). -/
def cxB : Complaint :=
  { product := some "B", company := some "CompB", narrative := some "x" }

/-- A matching complaint with product "A" and company "CompA"
(encountered second). -/
def cxA : Complaint :=
  { product := some "A", company := some "CompA", narrative := some "x" }

/-- The two-complaint corpus of the mode tie-break counterexample:
products "B" then "A" and companies "CompB" then "CompA", each value
occurring once, so both mode computations hit a tie on non-empty
columns. -/
def corpus2 : List Complaint := [cxB, cxA]

/-- Narrative predicate of the tie-break counterexample: matches the
narrative "x". -/
def pred2 : Option String → Bool := fun n => n == some "x"

/-- The summary row the source computes on `corpus2`. -/
def row2 : SummaryRow :=
  { count := 2, percentage := 100, topProduct := "A", topCompany := "CompA" }

/-- An empty DataFrame that still has a narrative column. -/
def emptyBatchWithNarr : Batch := { rows := [], hasNarrativeCol := true }

/-- A non-empty search-API batch with a narrative column. -/
def batchGood : Batch := { rows := [cGood], hasNarrativeCol := true }

/-- A lite-fetcher batch whose product column is entirely absent. -/
def bNoProduct : BatchL :=
  { rows := [cGood], hasNarrativeCol := true, hasProductCol := false }

/-- A lite-fetcher batch whose narrative column is entirely absent. -/
def bNoNarr : BatchL :=
  { rows := [cNoNarr], hasNarrativeCol := false, hasProductCol := true }

/-- A fresh cache entry (3 days old) covering days 0..100. -/
def cacheFresh : CacheEntry :=
  { records := [ { dateReceived := some 0 }, { dateReceived := some 100 } ],
    ageDays := 3 }

/-- A stale cache entry (8 days old) covering days 0..100. -/
def cacheStale : CacheEntry :=
  { records := [ { dateReceived := some 0 }, { dateReceived := some 100 } ],
    ageDays := 8 }

/-- Non-strict companion order of `better` on values of a column `l`:
`keyLe l a b` says `a` does not sort strictly before `b` in mode order
(lower multiplicity, or equal multiplicity and `b ≤ a`). -/
def keyLe (l : List String) (a b : String) : Prop :=
  l.count a < l.count b ∨ (l.count a = l.count b ∧ b ≤ a)

/-- A provider holding 5 records, for a small pagination run. -/
def provider5 : List Complaint := List.replicate 5 c0

/-- A lite-fetcher batch with both optional columns present. -/
def bFullL : BatchL :=
  { rows := [cGood], hasNarrativeCol := true, hasProductCol := true }

/-- The window covering days 0..90. -/
def winStd : Window := { startDate := 0, stopDate := 90 }

/-- A search-API batch holding one narrative-less row, with the
narrative column marked present. -/
def bLiteNoNarrRow : Batch := { rows := [cNoNarr], hasNarrativeCol := true }

/-- Outcome of the lite fetcher bulk-download path: `_download_zip`
returns `None` (download failure), the chunked CSV processing raises
(the `except` branch of lines 209-213), or the CSV is read into a
DataFrame. -/
inductive BulkOutcome where
  | downloadFailure : BulkOutcome
  | processingFailure : BulkOutcome
  | success : BatchL → BulkOutcome
deriving DecidableEq

/-- Download-and-filter section of the lite
`RealDataFetcher.load_and_filter_data` (after a cache miss): `None`
when the ZIP download fails (line 124) or processing raises (line 213),
otherwise the filtered DataFrame — an explicit empty-but-successful
result when zero records pass filtering (line 207). -/
def liteLoadAndFilterData (startDate stopDate : Int) (o : BulkOutcome) :
    Option LiteFilterOut :=
  match o with
  | .downloadFailure => none
  | .processingFailure => none
  | .success df => some (liteFilter startDate stopDate df)

/-- A lite-fetcher batch, both columns present, whose single row lies
outside the 0..90 window, so filtering leaves zero records. -/
def bOut : BatchL :=
  { rows := [cOut], hasNarrativeCol := true, hasProductCol := true }

/-- Helper: a run of the paging loop never yields more than the room
left under the record cap. -/
theorem pageLoop_yield (provider : List Complaint)
    (size maxRecords maxOffset frm total : Nat) :
    totalYield (pageLoop provider size maxRecords maxOffset frm total)
      ≤ maxRecords - total := by
  induction frm, total using pageLoop.induct provider size maxRecords maxOffset with
  | case1 frm total h1 =>
    rw [pageLoop]; simp only [dif_pos h1]; simp [totalYield]
  | case2 frm total h1 h2 =>
    rw [pageLoop]; simp only [dif_neg h1, dif_pos h2]; simp [totalYield]
  | case3 frm total h1 h2 h3 =>
    rw [pageLoop]; simp only [dif_neg h1, dif_neg h2, dif_pos h3]
    have hle : (pageHits provider frm (min size (maxRecords - total))).length
        ≤ min size (maxRecords - total) := by simp [pageHits]
    simp only [totalYield, List.map, List.sum_cons, List.sum_nil]
    omega
  | case4 frm total h1 h2 h3 ih =>
    rw [pageLoop]; simp only [dif_neg h1, dif_neg h2, dif_neg h3]
    have hle : (pageHits provider frm (min size (maxRecords - total))).length
        ≤ min size (maxRecords - total) := by simp [pageHits]
    simp only [not_or, not_le] at h1
    simp only [totalYield, List.map, List.sum_cons] at ih ⊢
    omega

/-- Helper: every request issued by the paging loop carries an offset
below the offset ceiling. -/
theorem pageLoop_requests_lt (provider : List Complaint)
    (size maxRecords maxOffset frm total : Nat) :
    ∀ p ∈ (pageLoop provider size maxRecords maxOffset frm total).requests,
      p.1 < maxOffset := by
  induction frm, total using pageLoop.induct provider size maxRecords maxOffset with
  | case1 frm total h1 =>
    rw [pageLoop]; simp only [dif_pos h1]; simp
  | case2 frm total h1 h2 =>
    rw [pageLoop]; simp only [dif_neg h1, dif_pos h2]
    simp only [not_or, not_le] at h1
    intro p hp
    simp at hp
    simp [hp, h1.1]
  | case3 frm total h1 h2 h3 =>
    rw [pageLoop]; simp only [dif_neg h1, dif_neg h2, dif_pos h3]
    simp only [not_or, not_le] at h1
    intro p hp
    simp at hp
    simp [hp, h1.1]
  | case4 frm total h1 h2 h3 ih =>
    rw [pageLoop]; simp only [dif_neg h1, dif_neg h2, dif_neg h3]
    simp only [not_or, not_le] at h1
    intro p hp
    simp at hp
    rcases hp with rfl | hp
    · simpa using h1.1
    · exact ih p hp

/-- Helper: paging an empty provider yields no pages. -/
theorem pageLoop_nil_pages (size maxRecords maxOffset frm total : Nat) :
    (pageLoop [] size maxRecords maxOffset frm total).pages = [] := by
  rw [pageLoop]
  split_ifs with h1 h2 h3 <;> simp_all [pageHits]

set_option maxRecDepth 8000 in
/-- Helper: the concrete paging run of the truncation scenario
(400 available records, page size 100, cap 250). -/
theorem pageRun_provider400 :
    pageRun provider400 100 250 =
      { requests := [(0, 100), (100, 100), (200, 50)],
        pages := [List.replicate 100 c0, List.replicate 100 c0,
                  List.replicate 50 c0] } := by
  simp [pageRun, provider400, pageLoop, pageHits, List.take_replicate,
    List.drop_replicate, List.length_replicate]

/-- Helper: `better` is the boolean negation of `keyLe`. -/
theorem better_eq_false_iff (l : List String) (a b : String) :
    better l a b = false ↔ keyLe l a b := by
  have hlt : (a.data < b.data) = (a < b) :=
    propext String.lt_iff_toList_lt.symm
  simp only [better, keyLe, hlt, Bool.or_eq_false_iff, Bool.and_eq_false_iff,
    decide_eq_false_iff_not, not_lt, beq_eq_false_iff_ne, ne_eq]
  constructor
  · rintro ⟨hab, h2⟩
    rcases lt_or_eq_of_le hab with h | h
    · exact Or.inl h
    · right
      refine ⟨h, ?_⟩
      rcases h2 with h2 | h2
      · exact absurd h h2
      · exact le_of_not_lt h2
  · rintro (h | ⟨h1, h2⟩)
    · exact ⟨le_of_lt h, Or.inl (ne_of_lt h)⟩
    · exact ⟨le_of_eq h1, Or.inr (not_lt_of_le h2)⟩

/-- Helper: `keyLe` is transitive. -/
theorem keyLe_trans (l : List String) (a b c : String)
    (hab : keyLe l a b) (hbc : keyLe l b c) : keyLe l a c := by
  rcases hab with h | ⟨h1, h2⟩ <;> rcases hbc with h' | ⟨h1', h2'⟩
  · exact Or.inl (lt_trans h h')
  · exact Or.inl (lt_of_lt_of_le h (le_of_eq h1'))
  · exact Or.inl (lt_of_le_of_lt (le_of_eq h1) h')
  · exact Or.inr ⟨h1.trans h1', h2'.trans h2⟩

/-- Helper: `keyLe` is total. -/
theorem keyLe_total (l : List String) (a b : String) :
    keyLe l a b ∨ keyLe l b a := by
  rcases Nat.lt_trichotomy (l.count a) (l.count b) with h | h | h
  · exact Or.inl (Or.inl h)
  · rcases le_total a b with hs | hs
    · exact Or.inr (Or.inr ⟨h.symm, hs⟩)
    · exact Or.inl (Or.inr ⟨h, hs⟩)
  · exact Or.inr (Or.inl h)

/-- Helper: the fold result is the seed or one of the folded
elements. -/
theorem pickBest_mem (l : List String) (ys : List String) (best : String) :
    pickBest l best ys = best ∨ pickBest l best ys ∈ ys := by
  induction ys generalizing best with
  | nil => exact Or.inl rfl
  | cons y ys ih =>
    simp only [pickBest]
    rcases ih (if better l y best then y else best) with h | h
    · rw [h]
      split_ifs with hc
      · exact Or.inr (List.mem_cons_self y ys)
      · exact Or.inl rfl
    · exact Or.inr (List.mem_cons_of_mem y h)

/-- Helper: nothing the fold has seen sorts strictly before its
result. -/
theorem pickBest_keyLe (l : List String) (ys : List String) (best u : String)
    (hu : u = best ∨ u ∈ ys) : keyLe l u (pickBest l best ys) := by
  induction ys generalizing best u with
  | nil =>
    rcases hu with rfl | h
    · exact Or.inr ⟨rfl, le_refl u⟩
    · simp at h
  | cons y ys ih =>
    simp only [pickBest]
    rcases hu with hb | hu
    · subst hb
      by_cases hc : better l y u = true
      · rw [if_pos hc]
        have h1 : keyLe l y (pickBest l y ys) := ih y y (Or.inl rfl)
        have h2 : keyLe l u y := by
          rcases keyLe_total l y u with h | h
          · exact absurd ((better_eq_false_iff l y u).mpr h)
              (by simp [hc])
          · exact h
        exact keyLe_trans l u y _ h2 h1
      · rw [if_neg hc]
        exact ih u u (Or.inl rfl)
    · rcases List.mem_cons.mp hu with hy | hu
      · subst hy
        by_cases hc : better l u best = true
        · rw [if_pos hc]
          exact ih u u (Or.inl rfl)
        · rw [if_neg hc]
          have h1 : keyLe l u best :=
            (better_eq_false_iff l u best).mp (Bool.eq_false_iff.mpr hc)
          have h2 : keyLe l best (pickBest l best ys) := ih best best (Or.inl rfl)
          exact keyLe_trans l u best _ h1 h2
      · exact ih (if better l y best then y else best) u (Or.inr hu)

/-- Helper: `mode0` returns an element of maximal multiplicity, least
among ties. -/
theorem mode0_spec (l : List String) (t : String) (h : mode0 l = some t) :
    t ∈ l ∧ ∀ u ∈ l,
      l.count u ≤ l.count t ∧ (l.count u = l.count t → t ≤ u) := by
  match l, h with
  | x :: xs, h =>
    simp only [mode0, Option.some_inj] at h
    subst h
    constructor
    · rcases pickBest_mem (x :: xs) (x :: xs) x with h | h
      · rw [h]; exact List.mem_cons_self x xs
      · exact h
    · intro u hu
      have hk := pickBest_keyLe (x :: xs) (x :: xs) x u (Or.inr hu)
      rcases hk with hlt | ⟨heq, hle⟩
      · exact ⟨le_of_lt hlt, fun he => absurd he (ne_of_lt hlt)⟩
      · exact ⟨le_of_eq heq, fun _ => hle⟩

/-- C1: Filter Engine postcondition — every record surviving
`_apply_filters` (search fetcher) or the filter section of the lite
fetcher has its date inside the window, a product outside the
credit-reporting exclusion set, and a non-empty trimmed narrative
whenever narrative filtering is required (narrative inclusion enabled
and the column present). -/
theorem C1_filter_engine_postcondition :
    (∀ (f : FetcherS) (df : Batch) (c : Complaint),
        c ∈ (applyFilters f df).rows →
          dateOk f.startDate f.stopDate c = true ∧
          productExcluded c = false ∧
          (f.liteMode = false → df.hasNarrativeCol = true → narrOk c = true)) ∧
    (∀ (w : Window) (df : BatchL) (c : Complaint),
        c ∈ (liteFilter w.startDate w.stopDate df).rows →
          (df.hasProductCol = false → c.product = none) →
          dateOk w.startDate w.stopDate c = true ∧
          productExcluded c = false ∧
          (df.hasNarrativeCol = true → narrOk c = true)) := by
  constructor
  · intro f df c hc
    simp only [applyFilters] at hc
    by_cases hemp : df.rows.isEmpty
    · rw [if_pos hemp] at hc
      rw [List.isEmpty_iff] at hemp
      rw [hemp] at hc
      simp at hc
    · rw [if_neg hemp] at hc
      simp only [List.mem_filter, Bool.and_eq_true, Bool.or_eq_true,
        Bool.not_eq_true'] at hc
      obtain ⟨⟨hmem, hdate, hnarr⟩, hprod⟩ := hc
      refine ⟨hdate, hprod, ?_⟩
      intro hl hn
      rcases hnarr with hfalse | hok
      · rw [hl, hn] at hfalse
        simp at hfalse
      · exact hok
  · intro w df c hc hwf
    simp only [liteFilter, List.mem_filter, Bool.and_eq_true] at hc
    obtain ⟨hmem, ⟨hdate, hnarr⟩, hprod⟩ := hc
    refine ⟨hdate, ?_, ?_⟩
    · cases hb : df.hasProductCol with
      | true =>
        rw [prodPass, if_pos hb] at hprod
        simpa using hprod
      | false =>
        simp [productExcluded, hwf hb]
    · intro hn
      rw [narrPass, if_pos hn] at hnarr
      exact hnarr

/-- C1 witness: a concrete in-window, narrative-bearing, non-excluded
record survives both filter engines and satisfies the
postcondition. -/
theorem C1_filter_engine_postcondition_witness :
    (dateOk fFull.startDate fFull.stopDate cGood = true ∧
      productExcluded cGood = false ∧
      (fFull.liteMode = false → batchGood.hasNarrativeCol = true →
        narrOk cGood = true)) ∧
    (dateOk winStd.startDate winStd.stopDate cGood = true ∧
      productExcluded cGood = false ∧
      (bFullL.hasNarrativeCol = true → narrOk cGood = true)) :=
  ⟨C1_filter_engine_postcondition.1 fFull batchGood cGood (by decide),
   C1_filter_engine_postcondition.2 winStd bFullL cGood (by decide) (by decide)⟩

/-- C2: the pagination controller never yields more than `max_records`
records in total, and every HTTP request it issues carries an offset
`frm` strictly below the 10000 offset ceiling. -/
theorem C2_pagination_cap (provider : List Complaint) (size maxRecords : Nat) :
    totalYield (pageRun provider size maxRecords) ≤ maxRecords ∧
    ∀ p ∈ (pageRun provider size maxRecords).requests, p.1 < 10000 := by
  constructor
  · have h := pageLoop_yield provider size maxRecords (min 10000 maxRecords) 0 0
    simpa [pageRun] using h
  · intro p hp
    have h := pageLoop_requests_lt provider size maxRecords
      (min 10000 maxRecords) 0 0 p (by simpa [pageRun] using hp)
    omega

/-- C2 witness: on a 5-record provider with page size 2 and cap 3, the
run yields at most 3 records and the issued request at offset 0 is
below the ceiling. -/
theorem C2_pagination_cap_witness :
    totalYield (pageRun provider5 2 3) ≤ 3 ∧
    (0, 2) ∈ (pageRun provider5 2 3).requests ∧ (0 : Nat) < 10000 := by
  have hmem : (0, 2) ∈ (pageRun provider5 2 3).requests := by
    simp [pageRun, provider5, pageLoop, pageHits, List.take_replicate,
      List.drop_replicate, List.length_replicate]
  exact ⟨(C2_pagination_cap provider5 2 3).1, hmem,
    (C2_pagination_cap provider5 2 3).2 (0, 2) hmem⟩

/-- C3: a cached entry is used iff it is younger than 7 days, its
minimum covered date is at most the window start, and its maximum
covered date is at least the window end minus the 7-day tolerance; in
particular an 8-day-old entry is never used. -/
theorem C3_cache_usability :
    (∀ (e : CacheEntry) (s t : Int),
        liteCacheStep (some e) s t = LiteLoadStep.useCache e.records ↔
          (e.ageDays < 7 ∧
            (∃ cs, covMin e = some cs ∧ cs ≤ s) ∧
            (∃ ce, covMax e = some ce ∧ t - 7 ≤ ce))) ∧
    (∀ (e : CacheEntry) (s t : Int), e.ageDays = 8 →
        liteCacheStep (some e) s t = LiteLoadStep.refetch) := by
  constructor
  · intro e s t
    simp only [liteCacheStep]
    by_cases hage : e.ageDays < 7
    · rw [if_pos hage]
      rcases hmin : covMin e with _ | cs <;> rcases hmax : covMax e with _ | ce
      · simp [hage]
      · simp [hage]
      · simp [hage]
      · by_cases hcov : cs ≤ s ∧ t - 7 ≤ ce
        · have h2 := hcov.2
          simp [hage, hcov, hcov.1]
          omega
        · simp only [if_neg hcov]
          simp [hage]
          intro h1
          rcases not_and_or.mp hcov with h | h
          · exact absurd h1 h
          · omega
    · rw [if_neg hage]
      simp [hage]
  · intro e s t h8
    simp [liteCacheStep, h8]

/-- C3 witness: a 3-day-old entry covering days 0..100 is used for the
window 10..50, and the same entry aged 8 days is refetched. -/
theorem C3_cache_usability_witness :
    liteCacheStep (some cacheFresh) 10 50 = LiteLoadStep.useCache cacheFresh.records ∧
    liteCacheStep (some cacheStale) 10 50 = LiteLoadStep.refetch :=
  ⟨(C3_cache_usability.1 cacheFresh 10 50).mpr
      ⟨by decide, ⟨0, by decide, by decide⟩, ⟨100, by decide, by decide⟩⟩,
   C3_cache_usability.2 cacheStale 10 50 (by decide)⟩

/-- Helper: the summary row the source computes on the concrete
two-complaint corpus (both mode computations succeed since the product
and company columns are fully populated). -/
theorem summaryFor_corpus2 :
    summaryFor pred2 corpus2 = some (Except.ok row2) := by
  have h1 : summaryFor pred2 corpus2 =
      some (Except.ok
        { count := 2, percentage := ((2 : ℕ) : ℚ) / ((2 : ℕ) : ℚ) * 100,
          topProduct := "A", topCompany := "CompA" }) := rfl
  rw [h1]
  simp only [row2, Option.some_inj, Except.ok.injEq, SummaryRow.mk.injEq]
  norm_num

/-- C4 counterexample: on a corpus whose matches carry products "B"
then "A" and companies "CompB" then "CompA" (one each, columns fully
populated so the source completes without error), the source computes
Top Product "A" and Top Company "CompA" (`mode()[0]`, least of the
sorted tie), not the first-encountered values "B" and "CompB" required
by the claim. -/
theorem C4_counterexample_tie_break :
    summaryFor pred2 corpus2 = some (Except.ok row2) ∧
    row2.topProduct = "A" ∧
    topFirstEncountered ((matchingRows pred2 corpus2).filterMap (·.product)) =
      some "B" ∧
    ("A" : String) ≠ "B" ∧
    row2.topCompany = "CompA" ∧
    topFirstEncountered ((matchingRows pred2 corpus2).filterMap (·.company)) =
      some "CompB" ∧
    ("CompA" : String) ≠ "CompB" :=
  ⟨summaryFor_corpus2, rfl, by decide, by decide, rfl, by decide, by decide⟩

/-- C4 (amended): for every harm label with at least one match whose
summary row is produced without error, the row has Count equal to the
number of matching complaints, Percentage equal to Count divided by
corpus size times 100, Top Product a most frequent product value among
the matches with ties broken by the least string value (pandas sorted
mode), not by first-encountered order, and Top Company analogously;
when the product or company column of the matches is all-missing the
source instead raises KeyError. -/
theorem C4_classifier_summary_stats :
    ∀ (p : Option String → Bool) (corpus : List Complaint) (row : SummaryRow),
      summaryFor p corpus = some (Except.ok row) →
        row.count = (matchingRows p corpus).length ∧
        0 < row.count ∧
        row.percentage = ((row.count : ℚ) / (corpus.length : ℚ)) * 100 ∧
        (row.topProduct ∈ (matchingRows p corpus).filterMap (·.product) ∧
          ∀ u ∈ (matchingRows p corpus).filterMap (·.product),
            ((matchingRows p corpus).filterMap (·.product)).count u ≤
              ((matchingRows p corpus).filterMap (·.product)).count
                row.topProduct ∧
            (((matchingRows p corpus).filterMap (·.product)).count u =
                ((matchingRows p corpus).filterMap (·.product)).count
                  row.topProduct →
              row.topProduct ≤ u)) ∧
        (row.topCompany ∈ (matchingRows p corpus).filterMap (·.company) ∧
          ∀ u ∈ (matchingRows p corpus).filterMap (·.company),
            ((matchingRows p corpus).filterMap (·.company)).count u ≤
              ((matchingRows p corpus).filterMap (·.company)).count
                row.topCompany ∧
            (((matchingRows p corpus).filterMap (·.company)).count u =
                ((matchingRows p corpus).filterMap (·.company)).count
                  row.topCompany →
              row.topCompany ≤ u)) := by
  intro p corpus row h
  simp only [summaryFor] at h
  by_cases hz : (matchingRows p corpus).length = 0
  · rw [if_pos hz] at h
    exact absurd h (by simp)
  · rw [if_neg hz] at h
    rcases hp : mode0 ((matchingRows p corpus).filterMap (·.product))
        with _ | tp
    · rw [hp] at h
      simp at h
    · rw [hp] at h
      rcases hc : mode0 ((matchingRows p corpus).filterMap (·.company))
          with _ | tc
      · rw [hc] at h
        simp at h
      · rw [hc] at h
        simp only [Option.some_inj, Except.ok.injEq] at h
        subst h
        exact ⟨rfl, Nat.pos_of_ne_zero hz, rfl,
          mode0_spec _ tp hp, mode0_spec _ tc hc⟩

/-- C4 witness: the amended statement instantiated on the concrete
two-complaint corpus, including the Top Company half. -/
theorem C4_classifier_summary_stats_witness :
    row2.count = (matchingRows pred2 corpus2).length ∧
    row2.percentage = ((row2.count : ℚ) / ((corpus2.length : ℕ) : ℚ)) * 100 ∧
    row2.topProduct ∈ (matchingRows pred2 corpus2).filterMap (·.product) ∧
    row2.topCompany ∈ (matchingRows pred2 corpus2).filterMap (·.company) := by
  have h := C4_classifier_summary_stats pred2 corpus2 row2 summaryFor_corpus2
  exact ⟨h.1, h.2.2.1, h.2.2.2.1.1, h.2.2.2.2.1⟩

set_option maxRecDepth 100000 in
/-- C5 counterexample: in the claimed scenario (`max_records = 250`,
page size 100, a 400-record provider) the controller does yield exactly
250 records across 3 requests, but the `truncated` flag of the loader
remains `false` — the flag is not set, and the loader only ever prints
it rather than returning it. -/
theorem C5_counterexample_trunc_flag :
    totalYield (pageRun provider400 100 250) = 250 ∧
    (pageRun provider400 100 250).requests.length = 3 ∧
    (loadCore f250 100 (FetchOutcome.success provider400)).map Prod.snd =
      some false := by
  refine ⟨?_, ?_, ?_⟩
  · rw [pageRun_provider400]; decide
  · rw [pageRun_provider400]; decide
  · simp only [loadCore, f250]
    rw [pageRun_provider400]
    decide

set_option maxRecDepth 100000 in
/-- C5 (amended): with `max_records = 250` and page size 100 the
controller yields exactly 250 records across 3 requests, but the
internal `truncated` flag stays `false` in this scenario, and the
public loader result is only the filtered DataFrame — the flag is
printed, never returned to the caller. -/
theorem C5_truncation_reporting :
    (loadCore f250 100 (FetchOutcome.success provider400)).map
      (fun p => p.1.length) = some 250 ∧
    (pageRun provider400 100 250).requests.length = 3 ∧
    (loadCore f250 100 (FetchOutcome.success provider400)).map Prod.snd =
      some false ∧
    loadAndFilterDataS f250 100 (FetchOutcome.success provider400) =
      some (applyFilters f250
        { rows := List.replicate 250 c0, hasNarrativeCol := false }) := by
  refine ⟨?_, ?_, ?_, ?_⟩
  · simp only [loadCore, f250]
    rw [pageRun_provider400]
    decide
  · rw [pageRun_provider400]; decide
  · simp only [loadCore, f250]
    rw [pageRun_provider400]
    decide
  · simp only [loadAndFilterDataS, loadCore, f250]
    rw [pageRun_provider400]
    decide

/-- C6 counterexample: for the configured value `months = 4` (inside
the claimed interval `[1,12]`, and the constructor default of the
search fetcher) the search-API window spans 90 days, not
`30*4 = 120`. -/
theorem C6_counterexample_search_clamp :
    (searchWindow 0 4).stopDate - (searchWindow 0 4).startDate = 90 ∧
    ¬((searchWindow 0 4).stopDate - (searchWindow 0 4).startDate = 30 * 4) := by
  decide

/-- C6 (amended): the lite fetcher clamps months to `[1,12]` while the
search-API fetcher clamps to `[1,3]`; both windows end at `now` and
span `30 * clamped-months` days, hence `30*months` days exactly on
`[1,12]` for the lite fetcher but only on `[1,3]` for the search
fetcher. -/
theorem C6_window_calculator :
    ∀ (now m : Int),
      (1 ≤ clampLiteMonths m ∧ clampLiteMonths m ≤ 12 ∧
        1 ≤ clampSearchMonths m ∧ clampSearchMonths m ≤ 3) ∧
      ((liteWindow now m).stopDate = now ∧
        (searchWindow now m).stopDate = now ∧
        (liteWindow now m).stopDate - (liteWindow now m).startDate =
          30 * clampLiteMonths m ∧
        (searchWindow now m).stopDate - (searchWindow now m).startDate =
          30 * clampSearchMonths m) ∧
      (1 ≤ m → m ≤ 12 →
        (liteWindow now m).stopDate - (liteWindow now m).startDate = 30 * m) ∧
      (1 ≤ m → m ≤ 3 →
        (searchWindow now m).stopDate - (searchWindow now m).startDate =
          30 * m) := by
  intro now m
  unfold liteWindow searchWindow clampLiteMonths clampSearchMonths
  dsimp only
  omega

/-- C6 witness: the amended statement at `now = 0`, `months = 2`. -/
theorem C6_window_calculator_witness :
    (liteWindow 0 2).stopDate - (liteWindow 0 2).startDate = 30 * 2 ∧
    (searchWindow 0 2).stopDate - (searchWindow 0 2).startDate = 30 * 2 :=
  ⟨(C6_window_calculator 0 2).2.2.1 (by decide) (by decide),
   (C6_window_calculator 0 2).2.2.2 (by decide) (by decide)⟩

/-- C7 counterexample: the search loader returns the same `None`
sentinel for an HTTP failure and for a successful retrieval that
returns zero records, so the two are not distinguishable. -/
theorem C7_counterexample_empty_success :
    loadAndFilterDataS fLite 1000 FetchOutcome.failure = none ∧
    loadAndFilterDataS fLite 1000 (FetchOutcome.success []) = none := by
  constructor
  · rfl
  · simp [loadAndFilterDataS, loadCore, pageRun, pageLoop_nil_pages, accumPages]

/-- C7 (amended): the lite (bulk-download) loader satisfies the claimed
distinctness — `None` on download or processing failure, and an
explicit (possibly empty) successful DataFrame whenever the CSV is
read, in particular an empty-but-successful result when zero records
pass filtering.  The search loader, however, returns `None` both on
failure and whenever zero rows are fetched (even on a successful empty
retrieval); an empty-but-successful search DataFrame arises only when
at least one row is fetched and filtering then removes every row. -/
theorem C7_failure_sentinel :
    (∀ (w : Window),
      liteLoadAndFilterData w.startDate w.stopDate BulkOutcome.downloadFailure =
        none ∧
      liteLoadAndFilterData w.startDate w.stopDate BulkOutcome.processingFailure =
        none) ∧
    (∀ (w : Window) (df : BatchL),
      liteLoadAndFilterData w.startDate w.stopDate (BulkOutcome.success df) =
        some (liteFilter w.startDate w.stopDate df)) ∧
    liteLoadAndFilterData 0 90 (BulkOutcome.success bOut) =
      some { rows := [], warnings := [] } ∧
    (∀ (f : FetcherS) (s : Nat),
      loadAndFilterDataS f s FetchOutcome.failure = none) ∧
    (∀ (f : FetcherS) (s : Nat),
      loadAndFilterDataS f s (FetchOutcome.success []) = none) ∧
    loadAndFilterDataS fLite 1000 (FetchOutcome.success [cOut]) =
      some { rows := [], hasNarrativeCol := false } := by
  refine ⟨fun w => ⟨rfl, rfl⟩, fun w df => rfl, by decide,
    fun f s => rfl, fun f s => ?_, ?_⟩
  · simp [loadAndFilterDataS, loadCore, pageRun, pageLoop_nil_pages, accumPages]
  · simp only [loadAndFilterDataS, loadCore, fLite, pageRun]
    rw [pageLoop]
    simp [pageHits, accumPages, takeHits, buildRow, applyFilters, dateOk, cOut]

/-- C8 counterexample: a batch whose product column is entirely absent
is filtered without any warning being surfaced, contradicting the
claim that the condition is warned about. -/
theorem C8_counterexample_silent_product :
    bNoProduct.hasProductCol = false ∧
    (liteFilter 0 90 bNoProduct).warnings = [] := by
  decide

/-- C8 (amended): a missing narrative or product column degrades its
predicate to always-true and filtering completes; the condition is
surfaced as a warning for the narrative column but silently for the
product column. -/
theorem C8_missing_column_degradation :
    ∀ (s t : Int) (df : BatchL),
      ((liteFilter s t df).rows =
        df.rows.filter fun c => dateOk s t c && narrPass df c && prodPass df c) ∧
      (df.hasNarrativeCol = false →
        (∀ c, narrPass df c = true) ∧
        (liteFilter s t df).warnings = [noNarrativeWarning]) ∧
      (df.hasProductCol = false →
        (∀ c, prodPass df c = true) ∧
        (liteFilter s t df).warnings =
          (if df.hasNarrativeCol then [] else [noNarrativeWarning])) := by
  intro s t df
  refine ⟨rfl, ?_, ?_⟩
  · intro h
    exact ⟨fun c => by simp [narrPass, h], by simp [liteFilter, h]⟩
  · intro h
    exact ⟨fun c => by simp [prodPass, h], rfl⟩

/-- C8 witness: the amended statement at the concrete batches missing
the narrative column and the product column respectively. -/
theorem C8_missing_column_degradation_witness :
    (∀ c, narrPass bNoNarr c = true) ∧
    (liteFilter 0 90 bNoNarr).warnings = [noNarrativeWarning] ∧
    (∀ c, prodPass bNoProduct c = true) := by
  have h1 := (C8_missing_column_degradation 0 90 bNoNarr).2.1 (by decide)
  have h2 := (C8_missing_column_degradation 0 90 bNoProduct).2.2 (by decide)
  exact ⟨h1.1, h1.2, h2.1⟩

/-- C9: `CFPBAnalyzer.load_and_filter_data` always fails with
`AttributeError` at the product-exclusion step, because
`self.credit_exclusions` is read but never assigned anywhere in the
class; the filtering pipeline of this module can never complete. -/
theorem C9_analyzer_missing_attribute :
    ∀ (rows : List Complaint),
      analyzerLoadAndFilterData analyzerInit rows =
        Except.error
          "AttributeError: CFPBAnalyzer object has no attribute credit_exclusions" :=
  fun _ => rfl

/-- C10 counterexample: an empty input frame that carries a narrative
column is returned unchanged by `_apply_filters` (the `df.empty`
guard), so the lite-mode output still contains the narrative
column. -/
theorem C10_counterexample_empty_frame :
    fLite.liteMode = true ∧
    emptyBatchWithNarr.hasNarrativeCol = true ∧
    (applyFilters fLite emptyBatchWithNarr).hasNarrativeCol = true := by
  decide

/-- C10 (amended): in lite mode (the default, since `LITE_MODE`
defaults to "1") the loader builds rows without a narrative value, the
narrative-presence predicate is never applied — a record passes on date
and product alone — and for every **non-empty** input batch the
filtered output has no narrative column (an empty frame is returned
unchanged by the `df.empty` guard). -/
theorem C10_lite_mode_behavior :
    ∀ (f : FetcherS) (df : Batch) (c : Complaint),
      f.liteMode = true →
        liteModeOfEnv none = true ∧
        (buildRow f.liteMode c).narrative = none ∧
        (df.rows ≠ [] → (applyFilters f df).hasNarrativeCol = false) ∧
        (c ∈ df.rows → dateOk f.startDate f.stopDate c = true →
          productExcluded c = false → c ∈ (applyFilters f df).rows) := by
  intro f df c hl
  refine ⟨by decide, ?_, ?_, ?_⟩
  · simp [buildRow, hl]
  · intro hne
    simp only [applyFilters]
    rw [if_neg (by simpa [List.isEmpty_iff] using hne)]
    simp [hl]
  · intro hmem hdate hprod
    simp only [applyFilters]
    have hne : ¬ df.rows.isEmpty = true := by
      rw [List.isEmpty_iff]
      intro h
      rw [h] at hmem
      simp at hmem
    rw [if_neg hne]
    refine List.mem_filter.mpr ⟨List.mem_filter.mpr ⟨hmem, ?_⟩, ?_⟩
    · simp [hl, hdate]
    · simp [hprod]

/-- C10 witness: the amended statement at a concrete lite fetcher and
a narrative-less in-window record. -/
theorem C10_lite_mode_behavior_witness :
    (applyFilters fLite bLiteNoNarrRow).hasNarrativeCol = false ∧
    cNoNarr ∈ (applyFilters fLite bLiteNoNarrRow).rows := by
  have h := C10_lite_mode_behavior fLite bLiteNoNarrRow cNoNarr (by decide)
  exact ⟨h.2.2.1 (by decide), h.2.2.2 (by decide) (by decide) (by decide)⟩
